import Mathlib

/-! # stm32-crane-monitor: joystick panel sampling, screen selection and LCD bus protocol

A shallow embedding of `firmware/Core/Src/main.c` and
`firmware/Core/Src/liquidcrystal_i2c.c`.

Conventions of the embedding:
* `uint8_t`, `uint16_t`, `uint32_t` values are `Nat`, reduced with an explicit `%`
  wherever the C code converts or can overflow; `int8_t` and `int` values are `Int`.
* Every call of `HAL_I2C_Master_Transmit` is recorded as one `BusWrite` (address and
  the single byte of the buffer); a driver function returns the list of bus writes it
  performs, in order.
* Everything `printf` sends to the UART is a `List Char`.
* What the HAL returns during one pass of the UI block (conversion results, pin levels)
  is the record `Inputs`.
-/

set_option maxRecDepth 4000

/-! ## Machine integers -/

/-- Conversion of an `int` to `uint8_t`. -/
def toU8 (n : Nat) : Nat := n % 256

/-- Conversion of an `int` to `int8_t` (two's complement wrap-around). -/
def toI8 (x : Int) : Int := (x + 128) % 256 - 128

/-- Conversion of an `int` to `unsigned int` (32 bits). -/
def toU32 (x : Int) : Nat := (x % 4294967296).toNat

/-- Conversion of an `unsigned int` to `int` (32 bits). -/
def toI32 (n : Nat) : Int := ((n : Int) + 2147483648) % 4294967296 - 2147483648

/-- Subtraction of two `uint32_t` values, as in `now - t_ui`. -/
def subU32 (a b : Nat) : Nat := (a % 4294967296 + 4294967296 - b % 4294967296) % 4294967296

/-- Conversion of a possibly negative `int` to `uint8_t`. -/
def intToU8 (x : Int) : Nat := (x % 256).toNat

/-! ## The HAL as seen by one pass of the UI block -/

/-- Level of a GPIO input pin, as returned by `HAL_GPIO_ReadPin`. -/
inductive GPIO_PinState where
  | GPIO_PIN_RESET
  | GPIO_PIN_SET
  deriving DecidableEq, Repr

/-- Outcome of one single-shot conversion: whether `HAL_ADC_PollForConversion` returned
`HAL_OK`, and the `uint32_t` that `HAL_ADC_GetValue` would return. -/
structure AdcSample where
  poll_ok : Bool
  value : Nat
  deriving DecidableEq, Repr

/-- One transmitted I2C byte: the device address passed to `HAL_I2C_Master_Transmit`
and the single byte of its buffer. -/
structure BusWrite where
  addr : Nat
  byte : Nat
  deriving DecidableEq, Repr

/-- The nibbles presented to the display with enable de-asserted: for each bus write
whose enable bit (0x04) is clear, its register-select bit (0x01) and its bits 7..4. -/
def latchedNibbles (tr : List BusWrite) : List (Nat × Nat) :=
  (tr.filter (fun w => w.byte &&& 0x04 = 0)).map (fun w => (w.byte &&& 0x01, w.byte >>> 4))

namespace MainC

/-! ## main.c: helpers -/

def LCD_BL : Nat := 0x08
def LCD_EN : Nat := 0x04
def LCD_RS : Nat := 0x01

/-- The static `lcd_backlight`; it is initialised to `LCD_BL` and never assigned. -/
def lcd_backlight : Nat := LCD_BL

/-- Source: `btn_read` (main.c 57-59): 1 when the pin reads low, else 0. -/
def btn_read (pin : GPIO_PinState) : Nat :=
  if pin = GPIO_PinState.GPIO_PIN_RESET then 1 else 0

/-- Source: `scale0_10` (main.c 60-63). `raw` is a `uint16_t`; `v` is a `uint32_t`. -/
def scale0_10 (raw : Nat) : Nat :=
  let v := (raw + 204) % 4294967296
  let v := if v > 4095 then 4095 else v
  toU8 (v / 410)

/-- Source: `ADC_ReadChannel` (main.c 151-167): 0 when the poll is not `HAL_OK`,
else the conversion value truncated to `uint16_t`. -/
def ADC_ReadChannel (a : AdcSample) : Nat :=
  if a.poll_ok then a.value % 65536 else 0

/-- The expression `(int8_t)scale0_10(raw) - 5` stored into an `int8_t`
(main.c 104 and 106: `Lx`, `Rx`). -/
def axisX (raw : Nat) : Int := toI8 (toI8 (scale0_10 raw : Nat) - 5)

/-- The expression `5 - (int8_t)scale0_10(raw)` stored into an `int8_t`
(main.c 105 and 107: `Ly`, `Ry`). -/
def axisY (raw : Nat) : Int := toI8 (5 - toI8 (scale0_10 raw : Nat))

/-- The `if (up_btn) ... else if (down_btn) ... else ...` chain of main.c 116-122,
giving the new `current_lcd_state`. -/
def selectState (up_btn down_btn : Nat) : Nat :=
  if up_btn ≠ 0 then 1
  else if down_btn ≠ 0 then 2
  else 0

/-- The string printed for a state by the `switch` of main.c 126-135; states without
a `case` print nothing. -/
def stateMessage (st : Nat) : Option String :=
  if st = 1 then some "Going Down!"
  else if st = 2 then some "Going Up!"
  else none

/-! ## The C library formatter, for the conversions main.c uses

`printf`/`snprintf` are libc; the interpreter below follows the C standard for the
directives that occur in main.c: `%d`, `%u`, the `+` flag and a decimal field width. -/

/-- One variadic argument after the default promotions. -/
inductive CArg where
  | int (v : Int)
  | uint (v : Nat)
  deriving DecidableEq, Repr

/-- Right-justify in a field of at least `width` characters, padding with spaces. -/
def padField (width : Nat) (body : List Char) : List Char :=
  List.replicate (width - body.length) ' ' ++ body

/-- Text produced by `%d` with an optional `+` flag and field width. -/
def fmtInt (plus : Bool) (width : Nat) (v : Int) : List Char :=
  let sign : List Char := if v < 0 then ['-'] else if plus then ['+'] else []
  padField width (sign ++ Nat.toDigits 10 v.natAbs)

/-- Text produced by `%u` with an optional field width. -/
def fmtUInt (width : Nat) (v : Nat) : List Char :=
  padField width (Nat.toDigits 10 v)

/-- Scanner position: in literal text, or inside a directive after `%` with the flag
and width read so far. -/
inductive FmtMode where
  | text
  | directive (plus : Bool) (width : Nat)
  deriving DecidableEq, Repr

/-- The formatter: walks the format string once, consuming one argument per
conversion. An unknown conversion or a missing argument ends the output. -/
def cformat : FmtMode → List Char → List CArg → List Char
  | _, [], _ => []
  | FmtMode.text, c :: rest, args =>
    if c = '%' then cformat (FmtMode.directive false 0) rest args
    else c :: cformat FmtMode.text rest args
  | FmtMode.directive plus width, c :: rest, args =>
    if c = '+' then cformat (FmtMode.directive true width) rest args
    else if c.isDigit then
      cformat (FmtMode.directive plus (10 * width + (c.toNat - 48))) rest args
    else if c = 'd' then
      match args with
      | CArg.int v :: more => fmtInt plus width v ++ cformat FmtMode.text rest more
      | CArg.uint v :: more => fmtInt plus width (toI32 v) ++ cformat FmtMode.text rest more
      | [] => []
    else if c = 'u' then
      match args with
      | CArg.uint v :: more => fmtUInt width v ++ cformat FmtMode.text rest more
      | CArg.int v :: more => fmtUInt width (toU32 v) ++ cformat FmtMode.text rest more
      | [] => []
    else []

/-- Text written by `printf(fmt, args...)`. -/
def printf (fmt : String) (args : List CArg) : List Char :=
  cformat FmtMode.text fmt.toList args

/-- Text left in the buffer (before the terminator) by `snprintf(buf, size, fmt, args...)`:
at most `size - 1` characters of the formatted text. -/
def snprintf (size : Nat) (fmt : String) (args : List CArg) : List Char :=
  (cformat FmtMode.text fmt.toList args).take (size - 1)

/-! ## main.c: the display driver (main.c 292-314) -/

/-- Source: `LCD_PulseEnable`: the byte with enable and backlight set, then the same
byte with enable cleared. -/
def LCD_PulseEnable (g_lcd_addr data : Nat) : List BusWrite :=
  let b := data ||| LCD_EN ||| lcd_backlight
  let b2 := b &&& (255 ^^^ LCD_EN)
  [⟨g_lcd_addr, b⟩, ⟨g_lcd_addr, b2⟩]

/-- Source: `LCD_WriteByte`: upper nibble, then lower nibble, each with the
register-select bit when `rs` is non-zero. -/
def LCD_WriteByte (g_lcd_addr data rs : Nat) : List BusWrite :=
  let d := (data &&& 0xF0) ||| (if rs ≠ 0 then LCD_RS else 0)
  let d2 := ((data <<< 4) &&& 0xF0) ||| (if rs ≠ 0 then LCD_RS else 0)
  LCD_PulseEnable g_lcd_addr d ++ LCD_PulseEnable g_lcd_addr d2

/-- Source: `LCD_Cmd` (the delay leaves no trace). -/
def LCD_Cmd (g_lcd_addr cmd : Nat) : List BusWrite := LCD_WriteByte g_lcd_addr cmd 0

/-- Source: `LCD_Data`. -/
def LCD_Data (g_lcd_addr data : Nat) : List BusWrite := LCD_WriteByte g_lcd_addr data 1

/-- Source: `LCD_Clear`. -/
def LCD_Clear (g_lcd_addr : Nat) : List BusWrite := LCD_Cmd g_lcd_addr 0x01

/-- The table `offs` of `LCD_SetCursor`. -/
def offs : List Nat := [0x00, 0x40]

/-- Source: `LCD_SetCursor`. Reading `offs[row]` outside the two-entry table is
undefined in C; the embedding returns `none` there. The argument of `LCD_Cmd` is
converted to `uint8_t`. -/
def LCD_SetCursor (g_lcd_addr col row : Nat) : Option (List BusWrite) :=
  match offs[row]? with
  | some o => some (LCD_Cmd g_lcd_addr (toU8 (0x80 ||| (o + col))))
  | none => none

/-- Source: `LCD_Print`: one data transfer per character up to the first NUL. -/
def LCD_Print (g_lcd_addr : Nat) : List Char → List BusWrite
  | [] => []
  | c :: cs =>
    if c.toNat = 0 then []
    else LCD_Data g_lcd_addr (toU8 c.toNat) ++ LCD_Print g_lcd_addr cs

/-! ## main.c: one pass of the UI block (main.c 100-146) and of the loop (main.c 92-147) -/

/-- What the HAL returns during one pass of the UI block: the four conversions
(channels 0, 1, 4, 8) and the four button pins. -/
structure Inputs where
  adc0 : AdcSample
  adc1 : AdcSample
  adc4 : AdcSample
  adc8 : AdcSample
  pc10 : GPIO_PinState
  pc11 : GPIO_PinState
  pd2 : GPIO_PinState
  pc12 : GPIO_PinState
  deriving DecidableEq, Repr

/-- The eight locals read at main.c 104-111. -/
structure Snapshot where
  Lx : Int
  Ly : Int
  Ls : Nat
  Rx : Int
  Ry : Int
  Rs : Nat
  up_btn : Nat
  down_btn : Nat
  deriving DecidableEq, Repr

/-- Variables of `main` that live across loop passes, the bound display address, and
the two output traces. -/
structure Sys where
  g_lcd_addr : Nat
  i2c : List BusWrite
  uart : List Char
  current_lcd_state : Nat
  previous_lcd_state : Nat
  line1 : List Char
  line2 : List Char
  t_led : Nat
  t_ui : Nat
  led : Bool
  deriving DecidableEq, Repr

/-- Source: main.c 104-111. `up_btn` is read from PD2 and `down_btn` from PC12. -/
def readPanel (inp : Inputs) : Snapshot :=
  { Lx := axisX (ADC_ReadChannel inp.adc0)
    Ly := axisY (ADC_ReadChannel inp.adc1)
    Rx := axisX (ADC_ReadChannel inp.adc4)
    Ry := axisY (ADC_ReadChannel inp.adc8)
    Ls := btn_read inp.pc10
    Rs := btn_read inp.pc11
    up_btn := btn_read inp.pd2
    down_btn := btn_read inp.pc12 }

/-- Source: the `printf` of main.c 114-115. -/
def diagLine (p : Snapshot) : List Char :=
  printf "LX:%d,LY:%d,LS:%u,RX:%d,RY:%d,RS:%u,UP:%u,DN:%u\n"
    [CArg.int p.Lx, CArg.int p.Ly, CArg.uint p.Ls, CArg.int p.Rx, CArg.int p.Ry,
     CArg.uint p.Rs, CArg.uint p.up_btn, CArg.uint p.down_btn]

/-- Source: the `switch` of main.c 126-135: cursor home and the static message for
states 1 and 2, nothing for any other state. -/
def drawState (g_lcd_addr st : Nat) : Option (List BusWrite) :=
  match stateMessage st with
  | some m =>
    match LCD_SetCursor g_lcd_addr 0 0 with
    | some c => some (c ++ LCD_Print g_lcd_addr m.toList)
    | none => none
  | none => some []

/-- Source: main.c 124-136: clear and redraw when the state changed. -/
def redraw (g_lcd_addr cur prev : Nat) : Option (List BusWrite) :=
  if cur ≠ prev then
    match drawState g_lcd_addr cur with
    | some d => some (LCD_Clear g_lcd_addr ++ d)
    | none => none
  else some []

/-- Source: the first `snprintf` of main.c 139. -/
def idleLine1 (p : Snapshot) : List Char :=
  snprintf 17 "LX:%+2d LY:%+2d L:%u" [CArg.int p.Lx, CArg.int p.Ly, CArg.uint p.Ls]

/-- Source: the second `snprintf` of main.c 140. -/
def idleLine2 (p : Snapshot) : List Char :=
  snprintf 17 "RX:%+2d RY:%+2d R:%u" [CArg.int p.Rx, CArg.int p.Ry, CArg.uint p.Rs]

/-- Source: main.c 141-142: both lines, each after its cursor command. -/
def drawIdle (g_lcd_addr : Nat) (l1 l2 : List Char) : Option (List BusWrite) :=
  match LCD_SetCursor g_lcd_addr 0 0, LCD_SetCursor g_lcd_addr 0 1 with
  | some c0, some c1 => some (c0 ++ LCD_Print g_lcd_addr l1 ++ c1 ++ LCD_Print g_lcd_addr l2)
  | _, _ => none

/-- Source: the body of `if (now - t_ui >= 100)` after `t_ui = now` (main.c 103-145). -/
def uiTick (inp : Inputs) (s : Sys) : Option Sys :=
  let p := readPanel inp
  let uart := s.uart ++ diagLine p
  let cur := selectState p.up_btn p.down_btn
  match redraw s.g_lcd_addr cur s.previous_lcd_state with
  | none => none
  | some r =>
    if cur = 0 then
      match drawIdle s.g_lcd_addr (idleLine1 p) (idleLine2 p) with
      | none => none
      | some d =>
        some { s with uart := uart, i2c := s.i2c ++ r ++ d, line1 := idleLine1 p,
                      line2 := idleLine2 p, current_lcd_state := cur,
                      previous_lcd_state := cur }
    else
      some { s with uart := uart, i2c := s.i2c ++ r, current_lcd_state := cur,
                    previous_lcd_state := cur }

/-- The test `now - t_led >= 200` of main.c 95. -/
def ledDue (now t_led : Nat) : Bool := decide (subU32 now t_led ≥ 200)

/-- The test `now - t_ui >= 100` of main.c 100. -/
def uiDue (now t_ui : Nat) : Bool := decide (subU32 now t_ui ≥ 100)

/-- Source: one pass of the `while (1)` body (main.c 93-146) with `HAL_GetTick()`
returning `now`. -/
def loopStep (now : Nat) (inp : Inputs) (s : Sys) : Option Sys :=
  let s1 := if ledDue now s.t_led then { s with t_led := now, led := !s.led } else s
  if uiDue now s1.t_ui then uiTick inp { s1 with t_ui := now } else some s1

/-! ## main.c: display initialisation and the error handler (main.c 315-339) -/

/-- Where control is: in the `while (1)` of `main`, or inside `Error_Handler`, whose
`while (1)` has no exit. -/
inductive Control where
  | running
  | in_error_handler
  deriving DecidableEq, Repr

/-- The program state together with where control is. -/
structure Machine where
  ctl : Control
  sys : Sys
  deriving DecidableEq, Repr

/-- Source: the writes of `LCD_Init` after the probe (main.c 323-328). -/
def LCD_Init_sequence (g_lcd_addr : Nat) : List BusWrite :=
  LCD_WriteByte g_lcd_addr 0x33 0 ++ LCD_WriteByte g_lcd_addr 0x32 0 ++
    LCD_Cmd g_lcd_addr 0x28 ++ LCD_Cmd g_lcd_addr 0x0C ++ LCD_Cmd g_lcd_addr 0x06 ++
    LCD_Clear g_lcd_addr

/-- Source: `LCD_Init` (main.c 315-329). `ready27` and `ready3F` tell whether
`HAL_I2C_IsDeviceReady` returns `HAL_OK` for address 0x27 and for 0x3F; the second is
only asked when the first fails. When neither answers, `Error_Handler` is entered and
the rest of the function is never reached. -/
def LCD_Init (ready27 ready3F : Bool) (s : Sys) : Machine :=
  let a27 := 0x27 <<< 1
  let a3F := 0x3F <<< 1
  if ready27 then
    ⟨Control.running, { s with g_lcd_addr := a27, i2c := s.i2c ++ LCD_Init_sequence a27 }⟩
  else if ready3F then
    ⟨Control.running, { s with g_lcd_addr := a3F, i2c := s.i2c ++ LCD_Init_sequence a3F }⟩
  else
    ⟨Control.in_error_handler, s⟩

/-- Source: one iteration of the loop of `Error_Handler` (main.c 335-338): toggle PA5,
wait. -/
def Error_Handler_iteration (s : Sys) : Sys := { s with led := !s.led }

/-- The variables and traces when `main` reaches `LCD_Init()` (main.c 77): nothing sent
yet, `g_lcd_addr` still 0. -/
def atLcdInit : Sys :=
  { g_lcd_addr := 0, i2c := [], uart := [], current_lcd_state := 0,
    previous_lcd_state := 0, line1 := [], line2 := [], t_led := 0, t_ui := 0, led := false }

/-- Source: main.c 77-90: `LCD_Init`, the two "Ready" messages, and the initial values
of the loop variables; `t0` and `t1` are the two `HAL_GetTick()` results. -/
def startup (ready27 ready3F : Bool) (t0 t1 : Nat) : Machine :=
  let m := LCD_Init ready27 ready3F atLcdInit
  match m.ctl with
  | Control.in_error_handler => m
  | Control.running =>
    ⟨Control.running,
      { m.sys with
        uart := m.sys.uart ++ printf "Controller Monitor Ready\r\n" []
        i2c := m.sys.i2c ++ LCD_Print m.sys.g_lcd_addr "Ready".toList
        t_led := t0
        t_ui := t1
        current_lcd_state := 0
        previous_lcd_state := 99
        line1 := []
        line2 := [] }⟩

/-- One step of the machine: one pass of the main loop when running (with the tick
value and HAL results of that pass), one iteration of the handler loop otherwise. -/
def machineStep (ev : Nat × Inputs) (m : Machine) : Option Machine :=
  match m.ctl with
  | Control.in_error_handler => some ⟨Control.in_error_handler, Error_Handler_iteration m.sys⟩
  | Control.running =>
    match loopStep ev.1 ev.2 m.sys with
    | some s => some ⟨Control.running, s⟩
    | none => none

/-- The machine after a sequence of steps. -/
def machineRun : List (Nat × Inputs) → Machine → Option Machine
  | [], m => some m
  | ev :: evs, m =>
    match machineStep ev m with
    | some m1 => machineRun evs m1
    | none => none

/-! ## Reading a bus trace back as the display sees it -/

/-- One byte latched by the display in 4-bit mode: the register-select level and the
byte assembled from two successive nibbles. -/
structure Latched where
  rs : Nat
  byte : Nat
  deriving DecidableEq, Repr

/-- The nibbles the display latches: bits 7..4 of each write that has enable low,
taken when the preceding write had enable high (a falling edge), with the
register-select bit of that write. -/
def fallingEdges : List Nat → List (Nat × Nat)
  | hi :: lo :: rest =>
    if hi &&& LCD_EN ≠ 0 ∧ lo &&& LCD_EN = 0 then
      (lo &&& LCD_RS, lo >>> 4) :: fallingEdges rest
    else fallingEdges (lo :: rest)
  | _ => []

/-- Pairs successive latched nibbles into bytes, upper nibble first. -/
def pairNibbles : List (Nat × Nat) → List Latched
  | (rs, hi) :: (_, lo) :: rest => ⟨rs, hi * 16 + lo⟩ :: pairNibbles rest
  | _ => []

/-- The bytes a display in 4-bit mode receives from a bus trace. -/
def received (tr : List BusWrite) : List Latched :=
  pairNibbles (fallingEdges (tr.map BusWrite.byte))

/-- A C string as the display receives it from `LCD_Print`: one data byte per
character before the first NUL, each reduced to `uint8_t`. -/
def textData (cs : List Char) : List Latched :=
  (cs.takeWhile (fun c => c.toNat ≠ 0)).map (fun c => ⟨1, c.toNat % 256⟩)

/-! ## The form of an Idle line -/

/-- The sign printed by the `+` flag: `-` for a negative value, `+` otherwise. -/
def signChar (v : Int) : Char := if v < 0 then '-' else '+'

/-- An Idle line in the form the code produces: side letter, `X:`, sign, one digit,
blank, side letter, `Y:`, sign, one digit, blank, side letter, `:`, flag digit. -/
def idleForm (side : Char) (x y : Int) (flag : Nat) : List Char :=
  [side, 'X', ':', signChar x, Nat.digitChar x.natAbs, ' ',
   side, 'Y', ':', signChar y, Nat.digitChar y.natAbs, ' ',
   side, ':', Nat.digitChar flag]

/-! ## Unfolded forms used in the proofs -/

/-- First byte of one enable pulse of `LCD_PulseEnable`, as a function of its argument. -/
def pulseHi (d : Nat) : Nat := d ||| LCD_EN ||| lcd_backlight

/-- Second byte of one enable pulse of `LCD_PulseEnable`, as a function of its argument. -/
def pulseLo (d : Nat) : Nat := (d ||| LCD_EN ||| lcd_backlight) &&& (255 ^^^ LCD_EN)

/-- The bytes written by main.c 124-136, with the cursor commands resolved. -/
def redrawBytes (a cur prev : Nat) : List BusWrite :=
  if cur ≠ prev then
    LCD_Clear a ++
      (match stateMessage cur with
       | some m => LCD_Cmd a 0x80 ++ LCD_Print a m.toList
       | none => [])
  else []

/-- The bytes written by main.c 138-143, with the cursor commands resolved. -/
def idleBytes (a cur : Nat) (p : Snapshot) : List BusWrite :=
  if cur = 0 then
    LCD_Cmd a 0x80 ++ LCD_Print a (idleLine1 p) ++ LCD_Cmd a 0xC0 ++ LCD_Print a (idleLine2 p)
  else []

end MainC


namespace LcdI2c

/-! ## liquidcrystal_i2c.c -/

def EN_BIT : Nat := 0x04
def RS_BIT : Nat := 0x01

/-- The static `g_backlight`; it is initialised to 0x08 and never assigned. -/
def g_backlight : Nat := 0x08

/-- The statics `g_lcd_address` and `g_num_rows` set by `LCD_Init`. -/
structure Globals where
  g_lcd_address : Nat
  g_num_rows : Nat
  deriving DecidableEq, Repr

/-- Source: `LCD_Write_I2C` (liquidcrystal_i2c.c 18-22). -/
def LCD_Write_I2C (g : Globals) (data flags : Nat) : List BusWrite :=
  [⟨(g.g_lcd_address <<< 1) % 65536, toU8 (data ||| flags ||| g_backlight)⟩]

/-- Source: `LCD_Write_Nibble` (liquidcrystal_i2c.c 25-30). -/
def LCD_Write_Nibble (g : Globals) (nibble flags : Nat) : List BusWrite :=
  LCD_Write_I2C g nibble (flags ||| EN_BIT) ++ LCD_Write_I2C g nibble flags

/-- Source: `LCD_SendCommand` (liquidcrystal_i2c.c 33-39). -/
def LCD_SendCommand (g : Globals) (cmd : Nat) : List BusWrite :=
  let upper_nibble := cmd &&& 0xF0
  let lower_nibble := (cmd <<< 4) &&& 0xF0
  LCD_Write_Nibble g upper_nibble 0 ++ LCD_Write_Nibble g lower_nibble 0

/-- Source: `LCD_SendData` (liquidcrystal_i2c.c 41-47). -/
def LCD_SendData (g : Globals) (data : Nat) : List BusWrite :=
  let upper_nibble := data &&& 0xF0
  let lower_nibble := (data <<< 4) &&& 0xF0
  LCD_Write_Nibble g upper_nibble RS_BIT ++ LCD_Write_Nibble g lower_nibble RS_BIT

/-- Source: `LCD_Init` (liquidcrystal_i2c.c 49-75): stores address and row count (the
`cols` argument is not used) and sends the initialisation sequence. -/
def LCD_Init (address _cols rows : Nat) : Globals × List BusWrite :=
  let g : Globals := { g_lcd_address := address, g_num_rows := rows }
  (g,
    LCD_Write_Nibble g 0x30 0 ++ LCD_Write_Nibble g 0x30 0 ++ LCD_Write_Nibble g 0x30 0 ++
    LCD_Write_Nibble g 0x20 0 ++
    LCD_SendCommand g 0x28 ++ LCD_SendCommand g 0x0C ++ LCD_SendCommand g 0x06 ++
    LCD_SendCommand g 0x01)

/-- The table `row_offsets` of `LCD_SetCursor`. -/
def row_offsets : List Nat := [0x00, 0x40, 0x14, 0x54]

/-- The index used into `row_offsets`: `row` after
`if (row >= g_num_rows) row = g_num_rows - 1;`, the assignment converting the `int`
difference to `uint8_t`. -/
def cursorIndex (g : Globals) (row : Nat) : Nat :=
  if row ≥ g.g_num_rows then intToU8 ((g.g_num_rows : Int) - 1) else row

/-- Source: `LCD_SetCursor` (liquidcrystal_i2c.c 82-88). Reading `row_offsets` outside
its four entries is undefined in C; the embedding returns `none` there. The argument of
`LCD_SendCommand` is converted to `uint8_t`. -/
def LCD_SetCursor (g : Globals) (col row : Nat) : Option (List BusWrite) :=
  match row_offsets[cursorIndex g row]? with
  | some o => some (LCD_SendCommand g (toU8 (0x80 ||| (col + o))))
  | none => none

end LcdI2c

/-! # Theorems -/

namespace MainC

/-! ## Arithmetic of `scale0_10` -/

theorem scale0_10_eq (raw : Nat) (h : raw ≤ 65535) :
    scale0_10 raw = (if raw + 204 > 4095 then 4095 else raw + 204) / 410 := by
  unfold scale0_10 toU8
  have h1 : (raw + 204) % 4294967296 = raw + 204 := by omega
  simp only [h1]
  split <;> omega

theorem scale0_10_le (raw : Nat) : scale0_10 raw ≤ 9 := by
  unfold scale0_10 toU8
  simp only
  split <;> omega

theorem axisX_eq (raw : Nat) : axisX raw = (scale0_10 raw : Int) - 5 := by
  have h := scale0_10_le raw
  unfold axisX toI8
  omega

theorem axisY_eq (raw : Nat) : axisY raw = 5 - (scale0_10 raw : Int) := by
  have h := scale0_10_le raw
  unfold axisY toI8
  omega

theorem scale0_10_mono (a b : Nat) (hab : a ≤ b) (hb : b ≤ 65535) :
    scale0_10 a ≤ scale0_10 b := by
  rw [scale0_10_eq a (by omega), scale0_10_eq b hb]
  split <;> split <;> omega

/-! ## Screen selection (C1, C2) -/

/-- C1, evaluated on the code: with the descend flag (`down_btn`, printed as `DN`) active
and the ascend flag (`up_btn`, printed as `UP`) inactive, the chain selects state 2,
whose message is "Going Up!", not "Going Down!"; on the first pass the display
receives clear, cursor home and the text "Going Up!", while the diagnostic line
reports `UP:0,DN:1`. With both flags active state 1 ("Going Down!") is selected. -/
theorem C1_descend_flag_alone_shows_going_up :
    selectState 0 1 = 2 ∧
    stateMessage (selectState 0 1) = some "Going Up!" ∧
    stateMessage (selectState 1 1) = some "Going Down!" ∧
    (uiTick
        { adc0 := ⟨true, 2048⟩, adc1 := ⟨true, 2048⟩, adc4 := ⟨true, 2048⟩,
          adc8 := ⟨true, 2048⟩, pc10 := GPIO_PinState.GPIO_PIN_SET,
          pc11 := GPIO_PinState.GPIO_PIN_SET, pd2 := GPIO_PinState.GPIO_PIN_SET,
          pc12 := GPIO_PinState.GPIO_PIN_RESET }
        { g_lcd_addr := 78, i2c := [], uart := [], current_lcd_state := 0,
          previous_lcd_state := 99, line1 := [], line2 := [], t_led := 0, t_ui := 0,
          led := false }).map (fun s => (s.uart, received s.i2c)) =
      some ("LX:0,LY:0,LS:0,RX:0,RY:0,RS:0,UP:0,DN:1\n".toList,
            (⟨0, 0x01⟩ : Latched) :: ⟨0, 0x80⟩ ::
              "Going Up!".toList.map (fun c => (⟨1, c.toNat⟩ : Latched))) := by
  refine ⟨by decide, by decide, by decide, ?_⟩
  rfl

/-- C2, evaluated on the code: with the descend flag (`down_btn`, `DN`) inactive and
the ascend flag (`up_btn`, `UP`) active, the chain selects state 1, whose message is
"Going Down!", not "Going Up!"; on the first pass the display receives clear, cursor
home and the text "Going Down!", while the diagnostic line reports `UP:1,DN:0`. -/
theorem C2_ascend_flag_alone_shows_going_down :
    selectState 1 0 = 1 ∧
    stateMessage (selectState 1 0) = some "Going Down!" ∧
    (uiTick
        { adc0 := ⟨true, 2048⟩, adc1 := ⟨true, 2048⟩, adc4 := ⟨true, 2048⟩,
          adc8 := ⟨true, 2048⟩, pc10 := GPIO_PinState.GPIO_PIN_SET,
          pc11 := GPIO_PinState.GPIO_PIN_SET, pd2 := GPIO_PinState.GPIO_PIN_RESET,
          pc12 := GPIO_PinState.GPIO_PIN_SET }
        { g_lcd_addr := 78, i2c := [], uart := [], current_lcd_state := 0,
          previous_lcd_state := 99, line1 := [], line2 := [], t_led := 0, t_ui := 0,
          led := false }).map (fun s => (s.uart, received s.i2c)) =
      some ("LX:0,LY:0,LS:0,RX:0,RY:0,RS:0,UP:1,DN:0\n".toList,
            (⟨0, 0x01⟩ : Latched) :: ⟨0, 0x80⟩ ::
              "Going Down!".toList.map (fun c => (⟨1, c.toNat⟩ : Latched))) := by
  refine ⟨by decide, by decide, ?_⟩
  rfl

/-! ## Normalised axis values (C3 - C6) -/

/-- C3: for every 16-bit raw reading, the value stored for an X axis
(`scale0_10(raw) - 5`) and for a Y axis (`5 - scale0_10(raw)`) lies in -5..5, and
neither the `uint8_t` result of `scale0_10` nor the `int8_t` conversions wrap: the
stored values equal the mathematical ones, with `scale0_10` the quotient by 410 of
`raw + 204` capped at 4095. The four axes of every panel snapshot are in -5..5. -/
theorem C3_axes_in_range (raw : Nat) (h : raw ≤ 65535) (inp : Inputs) :
    (-5 ≤ axisX raw ∧ axisX raw ≤ 5) ∧ (-5 ≤ axisY raw ∧ axisY raw ≤ 5) ∧
    scale0_10 raw = (if raw + 204 > 4095 then 4095 else raw + 204) / 410 ∧
    axisX raw = (scale0_10 raw : Int) - 5 ∧ axisY raw = 5 - (scale0_10 raw : Int) ∧
    (-5 ≤ (readPanel inp).Lx ∧ (readPanel inp).Lx ≤ 5) ∧
    (-5 ≤ (readPanel inp).Ly ∧ (readPanel inp).Ly ≤ 5) ∧
    (-5 ≤ (readPanel inp).Rx ∧ (readPanel inp).Rx ≤ 5) ∧
    (-5 ≤ (readPanel inp).Ry ∧ (readPanel inp).Ry ≤ 5) := by
  have hx := fun r => axisX_eq r
  have hy := fun r => axisY_eq r
  have hs := fun r => scale0_10_le r
  refine ⟨?_, ?_, scale0_10_eq raw h, hx raw, hy raw, ?_, ?_, ?_, ?_⟩
  · have := hs raw; rw [hx]; omega
  · have := hs raw; rw [hy]; omega
  · have := hs (ADC_ReadChannel inp.adc0); simp only [readPanel]; rw [hx]; omega
  · have := hs (ADC_ReadChannel inp.adc1); simp only [readPanel]; rw [hy]; omega
  · have := hs (ADC_ReadChannel inp.adc4); simp only [readPanel]; rw [hx]; omega
  · have := hs (ADC_ReadChannel inp.adc8); simp only [readPanel]; rw [hy]; omega

theorem C3_axes_in_range_witness :
    (-5 ≤ axisX 4095 ∧ axisX 4095 ≤ 5) ∧ (-5 ≤ axisY 0 ∧ axisY 0 ≤ 5) :=
  have h := C3_axes_in_range 4095 (by decide)
    { adc0 := ⟨true, 0⟩, adc1 := ⟨true, 0⟩, adc4 := ⟨true, 0⟩, adc8 := ⟨true, 0⟩,
      pc10 := GPIO_PinState.GPIO_PIN_SET, pc11 := GPIO_PinState.GPIO_PIN_SET,
      pd2 := GPIO_PinState.GPIO_PIN_SET, pc12 := GPIO_PinState.GPIO_PIN_SET }
  ⟨h.1, by decide⟩

/-- C4: `scale0_10(raw) - 5` is monotonic non-decreasing over the 16-bit raw readings. -/
theorem C4_normalize_monotone (a b : Nat) (hab : a ≤ b) (hb : b ≤ 65535) :
    axisX a ≤ axisX b := by
  have := scale0_10_mono a b hab hb
  rw [axisX_eq, axisX_eq]
  omega

theorem C4_normalize_monotone_witness :
    (1000 : Nat) ≤ 3000 ∧ (3000 : Nat) ≤ 65535 ∧ axisX 1000 ≤ axisX 3000 :=
  ⟨by decide, by decide, C4_normalize_monotone 1000 3000 (by decide) (by decide)⟩

/-- C5: the midpoint of the 12-bit raw range normalises to exactly zero on both kinds
of axis, for raw = 2048 and for raw = 2047. -/
theorem C5_midpoint_is_zero :
    axisX 2048 = 0 ∧ axisY 2048 = 0 ∧ axisX 2047 = 0 ∧ axisY 2047 = 0 := by
  decide

/-- C6, evaluated on the code: raw 4095 on a non-inverted axis gives +4, not +5 (raw 0
gives -5), and no raw reading reaches +5 on an X axis or -5 on a Y axis: `scale0_10`
never returns 10, because 4095 / 410 = 9. -/
theorem C6_top_value_unreachable :
    axisX 0 = -5 ∧ axisX 4095 = 4 ∧ axisY 4095 = -4 ∧ scale0_10 65535 = 9 ∧
    ∀ raw : Nat, axisX raw ≤ 4 ∧ -4 ≤ axisY raw := by
  refine ⟨by decide, by decide, by decide, by decide, ?_⟩
  intro raw
  have := scale0_10_le raw
  rw [axisX_eq, axisY_eq]
  omega

end MainC

namespace LcdI2c

/-! ## The nibble protocol of liquidcrystal_i2c.c (C7) -/

theorem sendCommand_bytes (g : Globals) (b : Nat) :
    (LCD_SendCommand g b).map BusWrite.byte =
      [toU8 ((b &&& 0xF0) ||| (0 ||| EN_BIT) ||| g_backlight),
       toU8 ((b &&& 0xF0) ||| 0 ||| g_backlight),
       toU8 (((b <<< 4) &&& 0xF0) ||| (0 ||| EN_BIT) ||| g_backlight),
       toU8 (((b <<< 4) &&& 0xF0) ||| 0 ||| g_backlight)] := rfl

theorem sendData_bytes (g : Globals) (b : Nat) :
    (LCD_SendData g b).map BusWrite.byte =
      [toU8 ((b &&& 0xF0) ||| (RS_BIT ||| EN_BIT) ||| g_backlight),
       toU8 ((b &&& 0xF0) ||| RS_BIT ||| g_backlight),
       toU8 (((b <<< 4) &&& 0xF0) ||| (RS_BIT ||| EN_BIT) ||| g_backlight),
       toU8 (((b <<< 4) &&& 0xF0) ||| RS_BIT ||| g_backlight)] := rfl

/-- C7: for every byte `b`, `LCD_SendCommand(b)` and `LCD_SendData(b)` each perform
exactly 4 single-byte bus writes; writes 1 and 2 carry the upper nibble of `b` in bits
7..4, writes 3 and 4 the lower nibble, and every written byte has the backlight bit
0x08 set. -/
theorem C7_four_writes_msn_first_backlit (g : Globals) (b : Nat) (hb : b < 256) :
    (∃ w1 w2 w3 w4 : Nat,
      (LCD_SendCommand g b).map BusWrite.byte = [w1, w2, w3, w4] ∧
      w1 >>> 4 = b >>> 4 ∧ w2 >>> 4 = b >>> 4 ∧
      w3 >>> 4 = b &&& 0x0F ∧ w4 >>> 4 = b &&& 0x0F ∧
      w1 &&& 0x08 = 0x08 ∧ w2 &&& 0x08 = 0x08 ∧ w3 &&& 0x08 = 0x08 ∧ w4 &&& 0x08 = 0x08) ∧
    (∃ w1 w2 w3 w4 : Nat,
      (LCD_SendData g b).map BusWrite.byte = [w1, w2, w3, w4] ∧
      w1 >>> 4 = b >>> 4 ∧ w2 >>> 4 = b >>> 4 ∧
      w3 >>> 4 = b &&& 0x0F ∧ w4 >>> 4 = b &&& 0x0F ∧
      w1 &&& 0x08 = 0x08 ∧ w2 &&& 0x08 = 0x08 ∧ w3 &&& 0x08 = 0x08 ∧ w4 &&& 0x08 = 0x08) ∧
    (LCD_SendCommand g b).length = 4 ∧ (LCD_SendData g b).length = 4 := by
  refine ⟨⟨_, _, _, _, sendCommand_bytes g b, ?_⟩, ⟨_, _, _, _, sendData_bytes g b, ?_⟩,
    rfl, rfl⟩
  · interval_cases b <;> decide
  · interval_cases b <;> decide

theorem C7_four_writes_msn_first_backlit_witness :
    (LCD_SendCommand ⟨0x27, 2⟩ 0xA5).map BusWrite.byte = [0xAC, 0xA8, 0x5C, 0x58] ∧
    (LCD_SendData ⟨0x27, 2⟩ 0xA5).map BusWrite.byte = [0xAD, 0xA9, 0x5D, 0x59] ∧
    (LCD_SendCommand ⟨0x27, 2⟩ 0xA5).length = 4 :=
  have h := C7_four_writes_msn_first_backlit ⟨0x27, 2⟩ 0xA5 (by decide)
  ⟨by decide, by decide, h.2.2.1⟩

end LcdI2c

namespace MainC

/-! ## Decoding the bus trace -/

theorem setCursor_row0 (a : Nat) : LCD_SetCursor a 0 0 = some (LCD_Cmd a 0x80) := rfl

theorem setCursor_row1 (a : Nat) : LCD_SetCursor a 0 1 = some (LCD_Cmd a 0xC0) := rfl

theorem writeByte_bytes (a d rs : Nat) :
    (LCD_WriteByte a d rs).map BusWrite.byte =
      [pulseHi ((d &&& 0xF0) ||| (if rs ≠ 0 then LCD_RS else 0)),
       pulseLo ((d &&& 0xF0) ||| (if rs ≠ 0 then LCD_RS else 0)),
       pulseHi (((d <<< 4) &&& 0xF0) ||| (if rs ≠ 0 then LCD_RS else 0)),
       pulseLo (((d <<< 4) &&& 0xF0) ||| (if rs ≠ 0 then LCD_RS else 0))] := rfl

theorem fallingEdges_pulse (hi lo : Nat) (rest : List Nat)
    (h1 : hi &&& LCD_EN ≠ 0) (h2 : lo &&& LCD_EN = 0) :
    fallingEdges (hi :: lo :: rest) = (lo &&& LCD_RS, lo >>> 4) :: fallingEdges rest := by
  rw [fallingEdges, if_pos ⟨h1, h2⟩]

theorem pairNibbles_two (r1 h r2 l : Nat) (rest : List (Nat × Nat)) :
    pairNibbles ((r1, h) :: (r2, l) :: rest) = ⟨r1, h * 16 + l⟩ :: pairNibbles rest := by
  rw [pairNibbles]

theorem pulse_facts (d r : Nat) (hd : d < 256) (hr : r = 0 ∨ r = 1) :
    pulseHi ((d &&& 0xF0) ||| r) &&& LCD_EN ≠ 0 ∧
    pulseLo ((d &&& 0xF0) ||| r) &&& LCD_EN = 0 ∧
    pulseHi (((d <<< 4) &&& 0xF0) ||| r) &&& LCD_EN ≠ 0 ∧
    pulseLo (((d <<< 4) &&& 0xF0) ||| r) &&& LCD_EN = 0 ∧
    pulseLo ((d &&& 0xF0) ||| r) &&& LCD_RS = r ∧
    (pulseLo ((d &&& 0xF0) ||| r) >>> 4) * 16 +
      (pulseLo (((d <<< 4) &&& 0xF0) ||| r) >>> 4) = d := by
  rcases hr with rfl | rfl
  · interval_cases d <;> decide
  · interval_cases d <;> decide

theorem received_writeByte (a d rs : Nat) (rest : List BusWrite) (hd : d < 256) :
    received (LCD_WriteByte a d rs ++ rest) =
      ⟨if rs ≠ 0 then 1 else 0, d⟩ :: received rest := by
  have hr : (if rs ≠ 0 then LCD_RS else 0) = 0 ∨ (if rs ≠ 0 then LCD_RS else 0) = 1 := by
    by_cases h : rs = 0 <;> simp [h, LCD_RS]
  obtain ⟨f1, f2, f3, f4, f5, f6⟩ := pulse_facts d _ hd hr
  have e : (if rs ≠ 0 then 1 else 0) = (if rs ≠ 0 then LCD_RS else 0) := rfl
  simp only [received, List.map_append, writeByte_bytes, List.cons_append, List.nil_append]
  rw [fallingEdges_pulse _ _ _ f1 f2, fallingEdges_pulse _ _ _ f3 f4, pairNibbles_two, f5, f6, e]

theorem received_print (a : Nat) (cs : List Char) (rest : List BusWrite) :
    received (LCD_Print a cs ++ rest) = textData cs ++ received rest := by
  induction cs with
  | nil => rfl
  | cons c cs ih =>
    by_cases h : c.toNat = 0
    · simp [LCD_Print, textData, h]
    · have hlt : toU8 c.toNat < 256 := Nat.mod_lt _ (by decide)
      simp only [LCD_Print, if_neg h, LCD_Data, List.append_assoc]
      rw [received_writeByte _ _ _ _ hlt, ih]
      simp [textData, h, toU8]

theorem selectState_cases (u d : Nat) :
    selectState u d = 0 ∨ selectState u d = 1 ∨ selectState u d = 2 := by
  unfold selectState
  split
  · exact Or.inr (Or.inl rfl)
  · split
    · exact Or.inr (Or.inr rfl)
    · exact Or.inl rfl

theorem received_cmd (a c : Nat) (rest : List BusWrite) (hc : c < 256) :
    received (LCD_Cmd a c ++ rest) = ⟨0, c⟩ :: received rest := by
  rw [LCD_Cmd, received_writeByte a c 0 rest hc]
  rfl

theorem textData_rs (cs : List Char) (x : Latched) (h : x ∈ textData cs) : x.rs = 1 := by
  unfold textData at h
  rw [List.mem_map] at h
  obtain ⟨c, _, rfl⟩ := h
  rfl

theorem redraw_eq (a cur prev : Nat) : redraw a cur prev = some (redrawBytes a cur prev) := by
  unfold redraw redrawBytes drawState
  by_cases h : cur = prev
  · simp [h]
  · simp only [ne_eq, h, not_false_eq_true, if_true, setCursor_row0]
    cases stateMessage cur <;> rfl

theorem uiTick_eq (inp : Inputs) (s : Sys) :
    uiTick inp s = some
      { s with
        uart := s.uart ++ diagLine (readPanel inp)
        i2c := s.i2c ++
          (redrawBytes s.g_lcd_addr
              (selectState (readPanel inp).up_btn (readPanel inp).down_btn)
              s.previous_lcd_state ++
            idleBytes s.g_lcd_addr
              (selectState (readPanel inp).up_btn (readPanel inp).down_btn) (readPanel inp))
        line1 := if selectState (readPanel inp).up_btn (readPanel inp).down_btn = 0
                 then idleLine1 (readPanel inp) else s.line1
        line2 := if selectState (readPanel inp).up_btn (readPanel inp).down_btn = 0
                 then idleLine2 (readPanel inp) else s.line2
        current_lcd_state := selectState (readPanel inp).up_btn (readPanel inp).down_btn
        previous_lcd_state := selectState (readPanel inp).up_btn (readPanel inp).down_btn } := by
  unfold uiTick
  simp only [redraw_eq, drawIdle, setCursor_row0, setCursor_row1, idleBytes]
  by_cases h : selectState (readPanel inp).up_btn (readPanel inp).down_btn = 0
  · simp [h]
  · simp [h]

theorem received_redraw (a cur prev : Nat) (rest : List BusWrite) :
    received (redrawBytes a cur prev ++ rest) =
      (if cur ≠ prev then
         (⟨0, 0x01⟩ : Latched) ::
           (match stateMessage cur with
            | some m => (⟨0, 0x80⟩ : Latched) :: textData m.toList
            | none => [])
       else []) ++ received rest := by
  unfold redrawBytes
  by_cases h : cur = prev
  · simp [h]
  · simp only [ne_eq, h, not_false_eq_true, if_true, LCD_Clear, List.append_assoc]
    rw [received_cmd _ _ _ (by decide)]
    cases stateMessage cur with
    | none => rfl
    | some m =>
      simp only [List.append_assoc]
      rw [received_cmd _ _ _ (by decide), received_print]
      rfl

theorem received_idle (a cur : Nat) (p : Snapshot) :
    received (idleBytes a cur p) =
      (if cur = 0 then
         (⟨0, 0x80⟩ : Latched) :: textData (idleLine1 p) ++
           (⟨0, 0xC0⟩ : Latched) :: textData (idleLine2 p)
       else []) := by
  unfold idleBytes
  by_cases h : cur = 0
  · simp only [h, if_true, List.append_assoc]
    rw [received_cmd _ _ _ (by decide), received_print, received_cmd _ _ _ (by decide)]
    have := received_print a (idleLine2 p) []
    rw [List.append_nil] at this
    rw [this]
    simp [received]
    rfl
  · simp only [h, if_false]
    rfl

/-! ## The formatter on the strings of main.c -/

theorem fmtUInt_zero_width (v : Nat) : fmtUInt 0 v = (toString v).toList := by
  simp [fmtUInt, padField]
  rfl

theorem fmtInt_plain (v : Int) : fmtInt false 0 v = (toString v).toList := by
  cases v with
  | ofNat n =>
    have h : ¬ ((Int.ofNat n) < 0) := by simp
    simp only [fmtInt, padField, h, if_false, Nat.zero_sub, List.replicate, List.nil_append]
    rfl
  | negSucc n =>
    have h : (Int.negSucc n) < 0 := Int.negSucc_lt_zero n
    simp only [fmtInt, padField, h, if_true, Nat.zero_sub, List.replicate, List.nil_append]
    rfl

theorem cformat_literal (pre rest : List Char) (args : List CArg) (h : '%' ∉ pre) :
    cformat FmtMode.text (pre ++ rest) args = pre ++ cformat FmtMode.text rest args := by
  induction pre with
  | nil => rfl
  | cons c cs ih =>
    have hc : c ≠ '%' := fun e => h (e ▸ List.mem_cons_self _ _)
    have hcs : '%' ∉ cs := fun e => h (List.mem_cons_of_mem _ e)
    rw [List.cons_append, cformat, if_neg hc, ih hcs, List.cons_append]

theorem cformat_d (rest : List Char) (v : Int) (more : List CArg) :
    cformat FmtMode.text ('%' :: 'd' :: rest) (CArg.int v :: more) =
      fmtInt false 0 v ++ cformat FmtMode.text rest more := by
  simp +decide [cformat]

theorem cformat_u (rest : List Char) (v : Nat) (more : List CArg) :
    cformat FmtMode.text ('%' :: 'u' :: rest) (CArg.uint v :: more) =
      fmtUInt 0 v ++ cformat FmtMode.text rest more := by
  simp +decide [cformat]

theorem cformat_plus2d (rest : List Char) (v : Int) (more : List CArg) :
    cformat FmtMode.text ('%' :: '+' :: '2' :: 'd' :: rest) (CArg.int v :: more) =
      fmtInt true 2 v ++ cformat FmtMode.text rest more := by
  simp +decide [cformat]

theorem diagLine_format (p : Snapshot) :
    diagLine p =
      ("LX:" ++ toString p.Lx ++ ",LY:" ++ toString p.Ly ++ ",LS:" ++ toString p.Ls ++
       ",RX:" ++ toString p.Rx ++ ",RY:" ++ toString p.Ry ++ ",RS:" ++ toString p.Rs ++
       ",UP:" ++ toString p.up_btn ++ ",DN:" ++ toString p.down_btn ++ "\n").toList := by
  have hf : "LX:%d,LY:%d,LS:%u,RX:%d,RY:%d,RS:%u,UP:%u,DN:%u\n".toList =
      "LX:".toList ++ ('%' :: 'd' :: (",LY:".toList ++ ('%' :: 'd' :: (",LS:".toList ++
      ('%' :: 'u' :: (",RX:".toList ++ ('%' :: 'd' :: (",RY:".toList ++ ('%' :: 'd' ::
      (",RS:".toList ++ ('%' :: 'u' :: (",UP:".toList ++ ('%' :: 'u' :: (",DN:".toList ++
      ('%' :: 'u' :: ("\n".toList ++ [])))))))))))))))) := rfl
  unfold diagLine printf
  rw [hf]
  rw [cformat_literal _ _ _ (by decide), cformat_d, cformat_literal _ _ _ (by decide),
    cformat_d, cformat_literal _ _ _ (by decide), cformat_u,
    cformat_literal _ _ _ (by decide), cformat_d, cformat_literal _ _ _ (by decide),
    cformat_d, cformat_literal _ _ _ (by decide), cformat_u,
    cformat_literal _ _ _ (by decide), cformat_u, cformat_literal _ _ _ (by decide),
    cformat_u, cformat_literal _ _ _ (by decide)]
  simp only [fmtInt_plain, fmtUInt_zero_width, String.toList, String.data_append, cformat,
    List.append_assoc, List.append_nil]

/-! ## Redraw policy (C8) -/

/-- C8: for every previous screen state and every panel snapshot, one pass of the UI
block returns, and the display receives the clear command 0x01 if and only if the newly
selected state differs from the previous one. When it differs, the pass sends clear,
then (for states 1 and 2) cursor home and the static message; when the new state is 0
(Idle) both Idle lines follow on every pass, changed or not; an unchanged state 1 or 2
sends nothing. With previous = 99 the pass always clears. The new state is stored as
the previous state of the next pass. -/
theorem C8_clear_iff_state_changed (inp : Inputs) (s : Sys) :
    ∃ s' out, uiTick inp s = some s' ∧ s'.i2c = s.i2c ++ out ∧
      s'.previous_lcd_state = selectState (readPanel inp).up_btn (readPanel inp).down_btn ∧
      ((⟨0, 0x01⟩ : Latched) ∈ received out ↔
        selectState (readPanel inp).up_btn (readPanel inp).down_btn ≠ s.previous_lcd_state) ∧
      received out =
        (if selectState (readPanel inp).up_btn (readPanel inp).down_btn ≠ s.previous_lcd_state
         then (⟨0, 0x01⟩ : Latched) ::
           (match stateMessage (selectState (readPanel inp).up_btn (readPanel inp).down_btn) with
            | some m => (⟨0, 0x80⟩ : Latched) :: textData m.toList
            | none => [])
         else []) ++
        (if selectState (readPanel inp).up_btn (readPanel inp).down_btn = 0
         then (⟨0, 0x80⟩ : Latched) :: textData (idleLine1 (readPanel inp)) ++
              (⟨0, 0xC0⟩ : Latched) :: textData (idleLine2 (readPanel inp))
         else []) ∧
      (s.previous_lcd_state = 99 → (⟨0, 0x01⟩ : Latched) ∈ received out) := by
  have hc := selectState_cases (readPanel inp).up_btn (readPanel inp).down_btn
  have hrec := received_redraw s.g_lcd_addr
    (selectState (readPanel inp).up_btn (readPanel inp).down_btn) s.previous_lcd_state
    (idleBytes s.g_lcd_addr (selectState (readPanel inp).up_btn (readPanel inp).down_btn)
      (readPanel inp))
  rw [received_idle] at hrec
  refine ⟨_, _, uiTick_eq inp s, rfl, rfl, ?_, hrec, ?_⟩
  · rw [hrec]
    generalize selectState (readPanel inp).up_btn (readPanel inp).down_btn = cur at hc ⊢
    by_cases hp : cur = s.previous_lcd_state
    · simp only [ne_eq, hp, not_true_eq_false, if_false, List.nil_append, iff_false]
      split
      · intro hmem
        simp only [List.mem_append, List.mem_cons] at hmem
        rcases hmem with (h | h) | (h | h)
        · exact absurd h (by decide)
        · have := textData_rs _ _ h
          exact absurd this (by decide)
        · exact absurd h (by decide)
        · have := textData_rs _ _ h
          exact absurd this (by decide)
      · exact List.not_mem_nil _
    · simp [hp]
  · intro h99
    rw [hrec]
    have hne : selectState (readPanel inp).up_btn (readPanel inp).down_btn ≠
        s.previous_lcd_state := by
      rw [h99]
      rcases hc with h | h | h <;> rw [h] <;> decide
    simp [hne]

theorem C8_clear_iff_state_changed_witness :
    ((uiTick
        { adc0 := ⟨true, 2048⟩, adc1 := ⟨true, 0⟩, adc4 := ⟨false, 7⟩, adc8 := ⟨true, 4095⟩,
          pc10 := GPIO_PinState.GPIO_PIN_SET, pc11 := GPIO_PinState.GPIO_PIN_RESET,
          pd2 := GPIO_PinState.GPIO_PIN_SET, pc12 := GPIO_PinState.GPIO_PIN_SET }
        { g_lcd_addr := 78, i2c := [], uart := [], current_lcd_state := 0,
          previous_lcd_state := 99, line1 := [], line2 := [], t_led := 0, t_ui := 0,
          led := false }).map (fun s => (received s.i2c).take 2)) =
      some [⟨0, 0x01⟩, ⟨0, 0x80⟩] ∧
    ∃ s' out, uiTick
        { adc0 := ⟨true, 2048⟩, adc1 := ⟨true, 0⟩, adc4 := ⟨false, 7⟩, adc8 := ⟨true, 4095⟩,
          pc10 := GPIO_PinState.GPIO_PIN_SET, pc11 := GPIO_PinState.GPIO_PIN_RESET,
          pd2 := GPIO_PinState.GPIO_PIN_SET, pc12 := GPIO_PinState.GPIO_PIN_SET }
        { g_lcd_addr := 78, i2c := [], uart := [], current_lcd_state := 0,
          previous_lcd_state := 99, line1 := [], line2 := [], t_led := 0, t_ui := 0,
          led := false } = some s' ∧ s'.i2c = [] ++ out ∧
      (⟨0, 0x01⟩ : Latched) ∈ received out := by
  refine ⟨rfl, ?_⟩
  obtain ⟨s', out, h1, h2, _, _, _, h6⟩ := C8_clear_iff_state_changed
    { adc0 := ⟨true, 2048⟩, adc1 := ⟨true, 0⟩, adc4 := ⟨false, 7⟩, adc8 := ⟨true, 4095⟩,
      pc10 := GPIO_PinState.GPIO_PIN_SET, pc11 := GPIO_PinState.GPIO_PIN_RESET,
      pd2 := GPIO_PinState.GPIO_PIN_SET, pc12 := GPIO_PinState.GPIO_PIN_SET }
    { g_lcd_addr := 78, i2c := [], uart := [], current_lcd_state := 0,
      previous_lcd_state := 99, line1 := [], line2 := [], t_led := 0, t_ui := 0,
      led := false }
  exact ⟨s', out, h1, h2, h6 rfl⟩

/-! ## Diagnostic line (C9) -/

/-- C9: every pass of the UI block returns and appends exactly the text of one
diagnostic line to the UART output, whatever the previous and the new screen state;
for every snapshot that text is "LX:" dec(LX) ",LY:" dec(LY) ",LS:" LS ",RX:" dec(RX)
",RY:" dec(RY) ",RS:" RS ",UP:" UP ",DN:" DN and a newline, the numbers in plain
decimal (a minus sign when negative, no plus sign, padding or blank); for the snapshot
LX=-3, LY=2, LS=1, RX=0, RY=-5, RS=0, UP=0, DN=1 it is
"LX:-3,LY:2,LS:1,RX:0,RY:-5,RS:0,UP:0,DN:1" and a newline. -/
theorem C9_diagnostic_line (inp : Inputs) (s : Sys) (p : Snapshot) :
    (∃ s', uiTick inp s = some s' ∧ s'.uart = s.uart ++ diagLine (readPanel inp)) ∧
    diagLine p =
      ("LX:" ++ toString p.Lx ++ ",LY:" ++ toString p.Ly ++ ",LS:" ++ toString p.Ls ++
       ",RX:" ++ toString p.Rx ++ ",RY:" ++ toString p.Ry ++ ",RS:" ++ toString p.Rs ++
       ",UP:" ++ toString p.up_btn ++ ",DN:" ++ toString p.down_btn ++ "\n").toList ∧
    diagLine { Lx := -3, Ly := 2, Ls := 1, Rx := 0, Ry := -5, Rs := 0, up_btn := 0,
               down_btn := 1 } =
      "LX:-3,LY:2,LS:1,RX:0,RY:-5,RS:0,UP:0,DN:1\n".toList :=
  ⟨⟨_, uiTick_eq inp s, rfl⟩, diagLine_format p, by decide⟩

/-! ## Interval tests (C10) -/

/-- C10: with a 32-bit last-fired timestamp `last`, a true elapsed time `d` below 2^32
and `now = (last + d) mod 2^32`, the UI test `now - t_ui >= 100` holds iff `d >= 100`
and the heartbeat test `now - t_led >= 200` holds iff `d >= 200`, also when
`last + d` passed 2^32. In one loop pass the LED toggles exactly when `d >= 200` and
a diagnostic line is emitted exactly when `d >= 100`. -/
theorem C10_interval_test_wraparound_safe (last d : Nat) (hl : last < 4294967296)
    (hd : d < 4294967296) (inp : Inputs) (s : Sys) :
    (uiDue ((last + d) % 4294967296) last = true ↔ 100 ≤ d) ∧
    (ledDue ((last + d) % 4294967296) last = true ↔ 200 ≤ d) ∧
    (loopStep ((last + d) % 4294967296) inp { s with t_led := last }).map (fun r => r.led) =
      some (if 200 ≤ d then !s.led else s.led) ∧
    (loopStep ((last + d) % 4294967296) inp { s with t_ui := last }).map (fun r => r.uart) =
      some (if 100 ≤ d then s.uart ++ diagLine (readPanel inp) else s.uart) := by
  have hsub : subU32 ((last + d) % 4294967296) last = d := by
    unfold subU32
    omega
  have hui : (uiDue ((last + d) % 4294967296) last = true ↔ 100 ≤ d) := by
    simp [uiDue, hsub]
  have hled : (ledDue ((last + d) % 4294967296) last = true ↔ 200 ≤ d) := by
    simp [ledDue, hsub]
  refine ⟨hui, hled, ?_, ?_⟩
  · unfold loopStep
    simp only [uiTick_eq]
    by_cases h : 200 ≤ d
    · rw [if_pos (hled.mpr h), if_pos h]
      split <;> rfl
    · have : ¬ (ledDue ((last + d) % 4294967296) last = true) := fun e => h (hled.mp e)
      rw [if_neg this, if_neg h]
      split <;> rfl
  · unfold loopStep
    simp only [uiTick_eq]
    by_cases h : 100 ≤ d
    · have hu := hui.mpr h
      split <;> simp [hu, h]
    · have hu : ¬ (uiDue ((last + d) % 4294967296) last = true) := fun e => h (hui.mp e)
      split <;> simp [hu, h]

theorem C10_interval_test_wraparound_safe_witness :
    (4294967290 : Nat) < 4294967296 ∧ (150 : Nat) < 4294967296 ∧
    (4294967290 + 150) % 4294967296 = 144 ∧
    (uiDue 144 4294967290 = true ↔ 100 ≤ 150) ∧
    (ledDue 144 4294967290 = true ↔ 200 ≤ 150) :=
  have h := C10_interval_test_wraparound_safe 4294967290 150 (by decide) (by decide)
    { adc0 := ⟨true, 0⟩, adc1 := ⟨true, 0⟩, adc4 := ⟨true, 0⟩, adc8 := ⟨true, 0⟩,
      pc10 := GPIO_PinState.GPIO_PIN_SET, pc11 := GPIO_PinState.GPIO_PIN_SET,
      pd2 := GPIO_PinState.GPIO_PIN_SET, pc12 := GPIO_PinState.GPIO_PIN_SET }
    { g_lcd_addr := 78, i2c := [], uart := [], current_lcd_state := 0,
      previous_lcd_state := 99, line1 := [], line2 := [], t_led := 0, t_ui := 0,
      led := false }
  ⟨by decide, by decide, by decide, h.1, h.2.1⟩

end MainC

namespace LcdI2c

/-! ## Cursor addressing of liquidcrystal_i2c.c (C11, C20) -/

theorem cursorIndex_clamped (g : Globals) (row : Nat) (h1 : 1 ≤ g.g_num_rows)
    (h4 : g.g_num_rows ≤ 4) (hr : g.g_num_rows ≤ row) :
    cursorIndex g row = g.g_num_rows - 1 := by
  unfold cursorIndex intToU8
  rw [if_pos hr]
  omega

theorem cursorIndex_inside (g : Globals) (row : Nat) (hr : row < g.g_num_rows) :
    cursorIndex g row = row := by
  unfold cursorIndex
  rw [if_neg (by omega)]

theorem setCursor_of_offset (g : Globals) (col row o : Nat)
    (h : row_offsets[cursorIndex g row]? = some o) :
    LCD_SetCursor g col row = some (LCD_SendCommand g (toU8 (0x80 ||| (col + o)))) := by
  unfold LCD_SetCursor
  rw [h]

theorem row_offsets_some (i : Nat) (h : i < 4) : ∃ o, row_offsets[i]? = some o := by
  interval_cases i <;> exact ⟨_, rfl⟩

/-- C11: with a configured row count between 1 and 4, `LCD_SetCursor(col, row)` with
`row >= rows` issues exactly the command of `LCD_SetCursor(col, rows - 1)`, namely
`0x80 | (col + row_offsets[rows - 1])` truncated to 8 bits; with `row < rows` it issues
`0x80 | (col + row_offsets[row])`; and `row_offsets[1] - row_offsets[0] = 0x40`. -/
theorem C11_cursor_row_clamped (g : Globals) (col row : Nat) (h1 : 1 ≤ g.g_num_rows)
    (h4 : g.g_num_rows ≤ 4) :
    (g.g_num_rows ≤ row →
      ∃ o, row_offsets[g.g_num_rows - 1]? = some o ∧
        LCD_SetCursor g col row = some (LCD_SendCommand g (toU8 (0x80 ||| (col + o)))) ∧
        LCD_SetCursor g col row = LCD_SetCursor g col (g.g_num_rows - 1)) ∧
    (row < g.g_num_rows →
      ∃ o, row_offsets[row]? = some o ∧
        LCD_SetCursor g col row = some (LCD_SendCommand g (toU8 (0x80 ||| (col + o))))) ∧
    row_offsets[0]? = some 0x00 ∧ row_offsets[1]? = some 0x40 ∧ 0x40 - 0x00 = 0x40 := by
  refine ⟨?_, ?_, rfl, rfl, rfl⟩
  · intro hr
    obtain ⟨o, ho⟩ := row_offsets_some (g.g_num_rows - 1) (by omega)
    have e1 := cursorIndex_clamped g row h1 h4 hr
    have e2 := cursorIndex_inside g (g.g_num_rows - 1) (by omega)
    refine ⟨o, ho, ?_, ?_⟩
    · exact setCursor_of_offset g col row o (by rw [e1]; exact ho)
    · rw [setCursor_of_offset g col row o (by rw [e1]; exact ho),
        setCursor_of_offset g col (g.g_num_rows - 1) o (by rw [e2]; exact ho)]
  · intro hr
    obtain ⟨o, ho⟩ := row_offsets_some row (by omega)
    have e := cursorIndex_inside g row hr
    exact ⟨o, ho, setCursor_of_offset g col row o (by rw [e]; exact ho)⟩

theorem C11_cursor_row_clamped_witness :
    (LCD_SetCursor ⟨0x27, 2⟩ 3 7).map (fun t => t.map BusWrite.byte) =
      some [0xCC, 0xC8, 0x3C, 0x38] ∧
    LCD_SetCursor ⟨0x27, 2⟩ 3 7 = LCD_SetCursor ⟨0x27, 2⟩ 3 1 := by
  obtain ⟨o, _, _, h⟩ := (C11_cursor_row_clamped ⟨0x27, 2⟩ 3 7 (by decide) (by decide)).1
    (by decide)
  exact ⟨by decide, h⟩

/-- C20: when the row count given to `LCD_Init` satisfies 1 <= rows <= 4, the index
used into the 4-entry table `row_offsets` is below 4 for every `col` and `row`, and
`LCD_SetCursor` issues a command. The bound on `rows` is needed: with rows = 0 the
clamp computes 255 for every row, and with rows > 4 a row of 4 is left unclamped; both
index outside the table. -/
theorem C20_cursor_index_in_table (g : Globals) (col row : Nat) (h1 : 1 ≤ g.g_num_rows)
    (h4 : g.g_num_rows ≤ 4) :
    cursorIndex g row < 4 ∧ (LCD_SetCursor g col row).isSome = true ∧
    (LCD_Init g.g_lcd_address 16 g.g_num_rows).1.g_num_rows = g.g_num_rows ∧
    (∀ (a r : Nat), cursorIndex ⟨a, 0⟩ r = 255 ∧ LCD_SetCursor ⟨a, 0⟩ col r = none) ∧
    (∀ (a rows : Nat), 4 < rows →
      cursorIndex ⟨a, rows⟩ 4 = 4 ∧ LCD_SetCursor ⟨a, rows⟩ col 4 = none) := by
  have hidx : cursorIndex g row < 4 := by
    by_cases hr : g.g_num_rows ≤ row
    · rw [cursorIndex_clamped g row h1 h4 hr]; omega
    · rw [cursorIndex_inside g row (by omega)]; omega
  refine ⟨hidx, ?_, rfl, ?_, ?_⟩
  · obtain ⟨o, ho⟩ := row_offsets_some _ hidx
    rw [setCursor_of_offset g col row o ho]
    rfl
  · intro a r
    have e : cursorIndex ⟨a, 0⟩ r = 255 := by
      unfold cursorIndex intToU8
      simp
    refine ⟨e, ?_⟩
    unfold LCD_SetCursor
    rw [e]
    rfl
  · intro a rows hrows
    have e : cursorIndex ⟨a, rows⟩ 4 = 4 := by
      unfold cursorIndex
      rw [if_neg (by simp; omega)]
    refine ⟨e, ?_⟩
    unfold LCD_SetCursor
    rw [e]
    rfl

theorem C20_cursor_index_in_table_witness :
    cursorIndex ⟨0x27, 2⟩ 200 = 1 ∧ cursorIndex ⟨0x27, 2⟩ 200 < 4 ∧
    cursorIndex ⟨0x27, 0⟩ 0 = 255 ∧ cursorIndex ⟨0x27, 5⟩ 4 = 4 :=
  have h := C20_cursor_index_in_table ⟨0x27, 2⟩ 0 200 (by decide) (by decide)
  ⟨by decide, h.1, by decide, by decide⟩

end LcdI2c

/-! ## The two drivers on the bus (C13, C18, C19) -/

theorem latchedNibbles_of_bytes (tr : List BusWrite) :
    latchedNibbles tr =
      ((tr.map BusWrite.byte).filter (fun b => b &&& 0x04 = 0)).map
        (fun b => (b &&& 0x01, b >>> 4)) := by
  induction tr with
  | nil => rfl
  | cons w ws ih =>
    unfold latchedNibbles at ih ⊢
    by_cases h : w.byte &&& 0x04 = 0
    · simp only [List.filter_cons, List.map_cons, h, decide_True, if_true, List.cons.injEq,
        true_and]
      exact ih
    · simp only [List.filter_cons, List.map_cons, h, decide_False, if_false, Bool.false_eq_true]
      exact ih

/-- C13: for every address and geometry, the nibbles presented with enable de-asserted
during `LCD_Init` of liquidcrystal_i2c.c are exactly 3, 3, 3, 2, then 0x28, 0x0C, 0x06,
0x01 each as upper nibble then lower nibble, all with register-select 0; the 24 bus
writes are 12 enable pulses. `LCD_Init` of main.c, after a successful probe of either
address, sends the same sequence. -/
theorem C13_init_nibble_order (address cols rows a : Nat) (ready3F : Bool) (s : MainC.Sys) :
    latchedNibbles (LcdI2c.LCD_Init address cols rows).2 =
      [(0, 3), (0, 3), (0, 3), (0, 2), (0, 2), (0, 8), (0, 0), (0, 0xC), (0, 0), (0, 6),
       (0, 0), (0, 1)] ∧
    (LcdI2c.LCD_Init address cols rows).2.length = 24 ∧
    latchedNibbles (MainC.LCD_Init_sequence a) =
      [(0, 3), (0, 3), (0, 3), (0, 2), (0, 2), (0, 8), (0, 0), (0, 0xC), (0, 0), (0, 6),
       (0, 0), (0, 1)] ∧
    (MainC.LCD_Init_sequence a).length = 24 ∧
    (MainC.LCD_Init true ready3F s).sys.i2c = s.i2c ++ MainC.LCD_Init_sequence (0x27 <<< 1) ∧
    (MainC.LCD_Init false true s).sys.i2c = s.i2c ++ MainC.LCD_Init_sequence (0x3F <<< 1) := by
  have hd : ((LcdI2c.LCD_Init address cols rows).2).map BusWrite.byte =
      [0x3C, 0x38, 0x3C, 0x38, 0x3C, 0x38, 0x2C, 0x28, 0x2C, 0x28, 0x8C, 0x88,
       0x0C, 0x08, 0xCC, 0xC8, 0x0C, 0x08, 0x6C, 0x68, 0x0C, 0x08, 0x1C, 0x18] := rfl
  have hm : (MainC.LCD_Init_sequence a).map BusWrite.byte =
      [0x3C, 0x38, 0x3C, 0x38, 0x3C, 0x38, 0x2C, 0x28, 0x2C, 0x28, 0x8C, 0x88,
       0x0C, 0x08, 0xCC, 0xC8, 0x0C, 0x08, 0x6C, 0x68, 0x0C, 0x08, 0x1C, 0x18] := rfl
  refine ⟨?_, rfl, ?_, rfl, rfl, rfl⟩
  · rw [latchedNibbles_of_bytes, hd]
    decide
  · rw [latchedNibbles_of_bytes, hm]
    decide

/-- C18: for every byte `b`, `LCD_WriteByte(b, 0)` of main.c writes the same 4 expander
bytes as `LCD_SendCommand(b)` of liquidcrystal_i2c.c, and `LCD_WriteByte(b, rs)` with
`rs != 0` the same 4 bytes as `LCD_SendData(b)`. -/
theorem C18_drivers_same_bytes (a : Nat) (g : LcdI2c.Globals) (b rs : Nat) (hb : b < 256)
    (hrs : rs ≠ 0) :
    (MainC.LCD_WriteByte a b 0).map BusWrite.byte =
      (LcdI2c.LCD_SendCommand g b).map BusWrite.byte ∧
    (MainC.LCD_WriteByte a b rs).map BusWrite.byte =
      (LcdI2c.LCD_SendData g b).map BusWrite.byte ∧
    (MainC.LCD_WriteByte a b rs).length = 4 ∧ (LcdI2c.LCD_SendData g b).length = 4 := by
  refine ⟨?_, ?_, rfl, rfl⟩
  · rw [MainC.writeByte_bytes, LcdI2c.sendCommand_bytes]
    interval_cases b <;> decide
  · rw [MainC.writeByte_bytes, LcdI2c.sendData_bytes, if_pos hrs]
    interval_cases b <;> decide

theorem C18_drivers_same_bytes_witness :
    (MainC.LCD_WriteByte 0x4E 0xA5 0).map BusWrite.byte = [0xAC, 0xA8, 0x5C, 0x58] ∧
    (MainC.LCD_WriteByte 0x4E 0xA5 0).map BusWrite.byte =
      (LcdI2c.LCD_SendCommand ⟨0x27, 2⟩ 0xA5).map BusWrite.byte ∧
    (MainC.LCD_WriteByte 0x4E 0xA5 7).map BusWrite.byte =
      (LcdI2c.LCD_SendData ⟨0x27, 2⟩ 0xA5).map BusWrite.byte :=
  have h := C18_drivers_same_bytes 0x4E ⟨0x27, 2⟩ 0xA5 7 (by decide) (by decide)
  ⟨by decide, h.1, h.2.1⟩

/-- C19: for every byte `b` and the 4 bytes w1..w4 written by `LCD_SendCommand(b)` or
`LCD_SendData(b)`: `(w2 & 0xF0) | (w4 >> 4) = b`; `w1 = w2 | 0x04` and `w3 = w4 | 0x04`
with the enable bit 0x04 clear in w2 and w4; and the register-select bit 0x01 is clear
in all four for a command and set in all four for data. -/
theorem C19_nibbles_lossless_strobed (g : LcdI2c.Globals) (b : Nat) (hb : b < 256) :
    (∃ w1 w2 w3 w4 : Nat,
      (LcdI2c.LCD_SendCommand g b).map BusWrite.byte = [w1, w2, w3, w4] ∧
      (w2 &&& 0xF0) ||| (w4 >>> 4) = b ∧
      w1 = w2 ||| 0x04 ∧ w3 = w4 ||| 0x04 ∧ w2 &&& 0x04 = 0 ∧ w4 &&& 0x04 = 0 ∧
      w1 &&& 0x01 = 0 ∧ w2 &&& 0x01 = 0 ∧ w3 &&& 0x01 = 0 ∧ w4 &&& 0x01 = 0) ∧
    (∃ w1 w2 w3 w4 : Nat,
      (LcdI2c.LCD_SendData g b).map BusWrite.byte = [w1, w2, w3, w4] ∧
      (w2 &&& 0xF0) ||| (w4 >>> 4) = b ∧
      w1 = w2 ||| 0x04 ∧ w3 = w4 ||| 0x04 ∧ w2 &&& 0x04 = 0 ∧ w4 &&& 0x04 = 0 ∧
      w1 &&& 0x01 = 0x01 ∧ w2 &&& 0x01 = 0x01 ∧ w3 &&& 0x01 = 0x01 ∧ w4 &&& 0x01 = 0x01) := by
  refine ⟨⟨_, _, _, _, LcdI2c.sendCommand_bytes g b, ?_⟩,
    ⟨_, _, _, _, LcdI2c.sendData_bytes g b, ?_⟩⟩
  · interval_cases b <;> decide
  · interval_cases b <;> decide

theorem C19_nibbles_lossless_strobed_witness :
    (LcdI2c.LCD_SendData ⟨0x27, 2⟩ 0x47).map BusWrite.byte = [0x4D, 0x49, 0x7D, 0x79] ∧
    ((0x49 : Nat) &&& 0xF0) ||| ((0x79 : Nat) >>> 4) = 0x47 ∧
    ∃ w1 w2 w3 w4 : Nat,
      (LcdI2c.LCD_SendData ⟨0x27, 2⟩ 0x47).map BusWrite.byte = [w1, w2, w3, w4] ∧
      (w2 &&& 0xF0) ||| (w4 >>> 4) = 0x47 := by
  obtain ⟨w1, w2, w3, w4, h1, h2, _⟩ :=
    (C19_nibbles_lossless_strobed ⟨0x27, 2⟩ 0x47 (by decide)).2
  exact ⟨by decide, by decide, w1, w2, w3, w4, h1, h2⟩

namespace MainC

/-! ## Probe failure (C12) -/

theorem error_handler_absorbing (evs : List (Nat × Inputs)) (m : Machine)
    (h : m.ctl = Control.in_error_handler) :
    ∃ m', machineRun evs m = some m' ∧ m'.ctl = Control.in_error_handler ∧
      m'.sys.i2c = m.sys.i2c := by
  induction evs generalizing m with
  | nil => exact ⟨m, rfl, h, rfl⟩
  | cons ev evs ih =>
    have hs : machineStep ev m =
        some ⟨Control.in_error_handler, Error_Handler_iteration m.sys⟩ := by
      unfold machineStep
      rw [h]
    obtain ⟨m', h1, h2, h3⟩ := ih ⟨Control.in_error_handler, Error_Handler_iteration m.sys⟩ rfl
    refine ⟨m', ?_, h2, ?_⟩
    · rw [machineRun, hs]
      exact h1
    · rw [h3]
      rfl

/-- C12: when neither 0x27 nor 0x3F answers the presence check, `LCD_Init` of main.c
ends inside `Error_Handler` without having written to the bus; from there control never
leaves the handler and the bus-write trace stays empty, however long the machine runs.
When 0x27 answers, the bound address is `0x27 << 1` whatever 0x3F would answer. -/
theorem C12_probe_failure_is_terminal (ready3F : Bool) (s : Sys) (t0 t1 : Nat)
    (evs : List (Nat × Inputs)) :
    (LCD_Init false false s).ctl = Control.in_error_handler ∧
    (LCD_Init false false s).sys.i2c = s.i2c ∧
    (startup false false t0 t1).ctl = Control.in_error_handler ∧
    (startup false false t0 t1).sys.i2c = [] ∧
    (∃ m, machineRun evs (startup false false t0 t1) = some m ∧
      m.ctl = Control.in_error_handler ∧ m.sys.i2c = []) ∧
    (LCD_Init true ready3F s).ctl = Control.running ∧
    (LCD_Init true ready3F s).sys.g_lcd_addr = 0x27 <<< 1 ∧
    (startup true ready3F t0 t1).sys.g_lcd_addr = 0x4E := by
  refine ⟨rfl, rfl, rfl, rfl, ?_, rfl, rfl, rfl⟩
  obtain ⟨m, h1, h2, h3⟩ := error_handler_absorbing evs (startup false false t0 t1) rfl
  exact ⟨m, h1, h2, h3⟩

/-! ## Axis inversion (C14) -/

/-- C14: for every raw reading (in particular every one in 0..65535) the value computed for a Y axis is the exact
negation of the value computed for an X axis from the same reading, also after
conversion to `int8_t`. -/
theorem C14_y_axis_negates_x (r : Nat) :
    axisY r = -(axisX r) ∧ axisY r = toI8 (-(axisX r)) ∧
    (5 : Int) - (scale0_10 r : Int) = -((scale0_10 r : Int) - 5) := by
  have hs := scale0_10_le r
  have hx := axisX_eq r
  have hy := axisY_eq r
  refine ⟨by omega, ?_, by omega⟩
  rw [hx, hy]
  unfold toI8
  omega

/-! ## Idle lines (C15, C16) -/

theorem fmtInt_plus2 (v : Int) (h1 : -5 ≤ v) (h2 : v ≤ 5) :
    fmtInt true 2 v = [signChar v, Nat.digitChar v.natAbs] := by
  interval_cases v <;> rfl

theorem fmtUInt_flag (v : Nat) (h : v ≤ 1) : fmtUInt 0 v = [Nat.digitChar v] := by
  interval_cases v <;> rfl

theorem idleFormat_eq (a : Char) (x y : Int) (l : Nat) (ha : a ≠ '%') :
    cformat FmtMode.text
      ([a, 'X', ':', '%', '+', '2', 'd', ' ', a, 'Y', ':', '%', '+', '2', 'd', ' ', a, ':',
        '%', 'u'])
      [CArg.int x, CArg.int y, CArg.uint l] =
    [a, 'X', ':'] ++ fmtInt true 2 x ++ [' ', a, 'Y', ':'] ++ fmtInt true 2 y ++
      [' ', a, ':'] ++ fmtUInt 0 l := by
  have h1 : '%' ∉ [a, 'X', ':'] := by
    simp only [List.mem_cons, List.mem_singleton, List.not_mem_nil, or_false, not_or]
    exact ⟨fun e => ha e.symm, by decide, by decide⟩
  have h2 : '%' ∉ [' ', a, 'Y', ':'] := by
    simp only [List.mem_cons, List.mem_singleton, List.not_mem_nil, or_false, not_or]
    exact ⟨by decide, fun e => ha e.symm, by decide, by decide⟩
  have h3 : '%' ∉ [' ', a, ':'] := by
    simp only [List.mem_cons, List.mem_singleton, List.not_mem_nil, or_false, not_or]
    exact ⟨by decide, fun e => ha e.symm, by decide⟩
  have e : [a, 'X', ':', '%', '+', '2', 'd', ' ', a, 'Y', ':', '%', '+', '2', 'd', ' ', a, ':',
        '%', 'u'] =
      [a, 'X', ':'] ++ ('%' :: '+' :: '2' :: 'd' :: ([' ', a, 'Y', ':'] ++
        ('%' :: '+' :: '2' :: 'd' :: ([' ', a, ':'] ++ ('%' :: 'u' :: []))))) := rfl
  rw [e, cformat_literal _ _ _ h1, cformat_plus2d, cformat_literal _ _ _ h2, cformat_plus2d,
    cformat_literal _ _ _ h3, cformat_u]
  simp only [cformat, List.append_nil, List.append_assoc]

theorem idleLine1_form (p : Snapshot) (hx1 : -5 ≤ p.Lx) (hx2 : p.Lx ≤ 5) (hy1 : -5 ≤ p.Ly)
    (hy2 : p.Ly ≤ 5) (hs : p.Ls ≤ 1) :
    idleLine1 p = idleForm 'L' p.Lx p.Ly p.Ls ∧
    idleLine1 p = printf "LX:%+2d LY:%+2d L:%u" [CArg.int p.Lx, CArg.int p.Ly, CArg.uint p.Ls] := by
  have hf : "LX:%+2d LY:%+2d L:%u".toList =
      ['L', 'X', ':', '%', '+', '2', 'd', ' ', 'L', 'Y', ':', '%', '+', '2', 'd', ' ', 'L',
       ':', '%', 'u'] := rfl
  unfold idleLine1 snprintf printf
  rw [hf, idleFormat_eq 'L' _ _ _ (by decide), fmtInt_plus2 _ hx1 hx2, fmtInt_plus2 _ hy1 hy2,
    fmtUInt_flag _ hs]
  exact ⟨rfl, rfl⟩

theorem idleLine2_form (p : Snapshot) (hx1 : -5 ≤ p.Rx) (hx2 : p.Rx ≤ 5) (hy1 : -5 ≤ p.Ry)
    (hy2 : p.Ry ≤ 5) (hs : p.Rs ≤ 1) :
    idleLine2 p = idleForm 'R' p.Rx p.Ry p.Rs ∧
    idleLine2 p = printf "RX:%+2d RY:%+2d R:%u" [CArg.int p.Rx, CArg.int p.Ry, CArg.uint p.Rs] := by
  have hf : "RX:%+2d RY:%+2d R:%u".toList =
      ['R', 'X', ':', '%', '+', '2', 'd', ' ', 'R', 'Y', ':', '%', '+', '2', 'd', ' ', 'R',
       ':', '%', 'u'] := rfl
  unfold idleLine2 snprintf printf
  rw [hf, idleFormat_eq 'R' _ _ _ (by decide), fmtInt_plus2 _ hx1 hx2, fmtInt_plus2 _ hy1 hy2,
    fmtUInt_flag _ hs]
  exact ⟨rfl, rfl⟩

theorem btn_read_le (pin : GPIO_PinState) : btn_read pin ≤ 1 := by
  unfold btn_read
  split <;> decide

end MainC

namespace MainC

theorem readPanel_in_range (inp : Inputs) :
    (-5 ≤ (readPanel inp).Lx ∧ (readPanel inp).Lx ≤ 5) ∧
    (-5 ≤ (readPanel inp).Ly ∧ (readPanel inp).Ly ≤ 5) ∧
    (-5 ≤ (readPanel inp).Rx ∧ (readPanel inp).Rx ≤ 5) ∧
    (-5 ≤ (readPanel inp).Ry ∧ (readPanel inp).Ry ≤ 5) ∧
    (readPanel inp).Ls ≤ 1 ∧ (readPanel inp).Rs ≤ 1 := by
  have h0 := scale0_10_le (ADC_ReadChannel inp.adc0)
  have h1 := scale0_10_le (ADC_ReadChannel inp.adc1)
  have h4 := scale0_10_le (ADC_ReadChannel inp.adc4)
  have h8 := scale0_10_le (ADC_ReadChannel inp.adc8)
  simp only [readPanel, axisX_eq, axisY_eq]
  exact ⟨by omega, by omega, by omega, by omega, btn_read_le _, btn_read_le _⟩

theorem idleForm_length (side : Char) (x y : Int) (flag : Nat) :
    (idleForm side x y flag).length = 15 := rfl

theorem textData_length_le (cs : List Char) : (textData cs).length ≤ cs.length := by
  unfold textData
  rw [List.length_map]
  exact (List.takeWhile_sublist _).length_le

/-- C15, as the claim states it, fails: with all axes at 0 and the flags at 0 the first
Idle line is "LX:+0 LY:+0 L:0", which has 15 characters, not 16, and one digit after
each sign, not two; the second line likewise. -/
theorem C15_idle_line_has_15_chars_counterexample :
    idleLine1 { Lx := 0, Ly := 0, Ls := 0, Rx := 0, Ry := 0, Rs := 0, up_btn := 0,
                down_btn := 0 } = "LX:+0 LY:+0 L:0".toList ∧
    idleLine2 { Lx := 0, Ly := 0, Ls := 0, Rx := 0, Ry := 0, Rs := 0, up_btn := 0,
                down_btn := 0 } = "RX:+0 RY:+0 R:0".toList ∧
    ¬ ((idleLine1 { Lx := 0, Ly := 0, Ls := 0, Rx := 0, Ry := 0, Rs := 0, up_btn := 0,
                    down_btn := 0 }).length = 16) ∧
    ¬ ((idleLine2 { Lx := 0, Ly := 0, Ls := 0, Rx := 0, Ry := 0, Rs := 0, up_btn := 0,
                    down_btn := 0 }).length = 16) := by
  decide

/-- C15, amended: for every axis value in -5..5 and every flag in {0,1}, each of the two
Idle lines is exactly 15 characters long and has the form `LX:` sign digit ` LY:` sign
digit ` L:` flag (`RX`, `RY`, `R` for the second line), with the sign always present
and a single digit after it; the lines built by a pass of the UI block have this form. -/
theorem C15_idle_line_form (p : Snapshot) (inp : Inputs)
    (hLx : -5 ≤ p.Lx ∧ p.Lx ≤ 5) (hLy : -5 ≤ p.Ly ∧ p.Ly ≤ 5)
    (hRx : -5 ≤ p.Rx ∧ p.Rx ≤ 5) (hRy : -5 ≤ p.Ry ∧ p.Ry ≤ 5)
    (hLs : p.Ls ≤ 1) (hRs : p.Rs ≤ 1) :
    idleLine1 p = idleForm 'L' p.Lx p.Ly p.Ls ∧ (idleLine1 p).length = 15 ∧
    idleLine2 p = idleForm 'R' p.Rx p.Ry p.Rs ∧ (idleLine2 p).length = 15 ∧
    (signChar p.Lx = '+' ∨ signChar p.Lx = '-') ∧
    idleLine1 (readPanel inp) =
      idleForm 'L' (readPanel inp).Lx (readPanel inp).Ly (readPanel inp).Ls ∧
    idleLine2 (readPanel inp) =
      idleForm 'R' (readPanel inp).Rx (readPanel inp).Ry (readPanel inp).Rs := by
  have e1 := (idleLine1_form p hLx.1 hLx.2 hLy.1 hLy.2 hLs).1
  have e2 := (idleLine2_form p hRx.1 hRx.2 hRy.1 hRy.2 hRs).1
  obtain ⟨r1, r2, r3, r4, r5, r6⟩ := readPanel_in_range inp
  refine ⟨e1, by rw [e1]; rfl, e2, by rw [e2]; rfl, ?_,
    (idleLine1_form _ r1.1 r1.2 r2.1 r2.2 r5).1, (idleLine2_form _ r3.1 r3.2 r4.1 r4.2 r6).1⟩
  unfold signChar
  split
  · exact Or.inr rfl
  · exact Or.inl rfl

theorem C15_idle_line_form_witness :
    idleLine1 { Lx := -5, Ly := 4, Ls := 1, Rx := 0, Ry := 5, Rs := 0, up_btn := 0,
                down_btn := 0 } = "LX:-5 LY:+4 L:1".toList ∧
    (idleLine2 { Lx := -5, Ly := 4, Ls := 1, Rx := 0, Ry := 5, Rs := 0, up_btn := 0,
                 down_btn := 0 }).length = 15 :=
  have h := C15_idle_line_form
    { Lx := -5, Ly := 4, Ls := 1, Rx := 0, Ry := 5, Rs := 0, up_btn := 0, down_btn := 0 }
    { adc0 := ⟨true, 0⟩, adc1 := ⟨true, 0⟩, adc4 := ⟨true, 0⟩, adc8 := ⟨true, 0⟩,
      pc10 := GPIO_PinState.GPIO_PIN_SET, pc11 := GPIO_PinState.GPIO_PIN_SET,
      pd2 := GPIO_PinState.GPIO_PIN_SET, pc12 := GPIO_PinState.GPIO_PIN_SET }
    (by decide) (by decide) (by decide) (by decide) (by decide) (by decide)
  ⟨by decide, h.2.2.2.1⟩

/-- C16: every string the main loop hands to `LCD_Print` after a cursor command at
column 0 has at most 16 characters: for every axis value in -5..5 and flag in {0,1}
the two Idle lines equal the full formatted text (the 17-byte `snprintf` cuts nothing)
and have length at most 16, so the display receives at most 16 data bytes per line;
the static messages "Going Up!" and "Going Down!" have length at most 16. -/
theorem C16_printed_strings_fit_row (p : Snapshot) (st : Nat) (m : String)
    (hLx : -5 ≤ p.Lx ∧ p.Lx ≤ 5) (hLy : -5 ≤ p.Ly ∧ p.Ly ≤ 5)
    (hRx : -5 ≤ p.Rx ∧ p.Rx ≤ 5) (hRy : -5 ≤ p.Ry ∧ p.Ry ≤ 5)
    (hLs : p.Ls ≤ 1) (hRs : p.Rs ≤ 1) (hm : stateMessage st = some m) :
    idleLine1 p = printf "LX:%+2d LY:%+2d L:%u" [CArg.int p.Lx, CArg.int p.Ly, CArg.uint p.Ls] ∧
    idleLine2 p = printf "RX:%+2d RY:%+2d R:%u" [CArg.int p.Rx, CArg.int p.Ry, CArg.uint p.Rs] ∧
    (idleLine1 p).length ≤ 16 ∧ (idleLine2 p).length ≤ 16 ∧
    (textData (idleLine1 p)).length ≤ 16 ∧ (textData (idleLine2 p)).length ≤ 16 ∧
    "Going Up!".length ≤ 16 ∧ "Going Down!".length ≤ 16 ∧ m.length ≤ 16 := by
  obtain ⟨a1, a2⟩ := idleLine1_form p hLx.1 hLx.2 hLy.1 hLy.2 hLs
  obtain ⟨b1, b2⟩ := idleLine2_form p hRx.1 hRx.2 hRy.1 hRy.2 hRs
  have l1 : (idleLine1 p).length ≤ 16 := by rw [a1, idleForm_length]; decide
  have l2 : (idleLine2 p).length ≤ 16 := by rw [b1, idleForm_length]; decide
  refine ⟨a2, b2, l1, l2, Nat.le_trans (textData_length_le _) l1,
    Nat.le_trans (textData_length_le _) l2, by decide, by decide, ?_⟩
  unfold stateMessage at hm
  split at hm
  · cases hm; decide
  · split at hm
    · cases hm; decide
    · cases hm

theorem C16_printed_strings_fit_row_witness :
    stateMessage 1 = some "Going Down!" ∧
    (idleLine1 { Lx := -5, Ly := 4, Ls := 1, Rx := 0, Ry := 5, Rs := 0, up_btn := 0,
                 down_btn := 0 }).length ≤ 16 ∧ "Going Down!".length ≤ 16 :=
  have h := C16_printed_strings_fit_row
    { Lx := -5, Ly := 4, Ls := 1, Rx := 0, Ry := 5, Rs := 0, up_btn := 0, down_btn := 0 }
    1 "Going Down!"
    (by decide) (by decide) (by decide) (by decide) (by decide) (by decide) (by decide)
  ⟨by decide, h.2.2.1, h.2.2.2.2.2.2.2.2⟩

/-! ## Fail-soft acquisition (C17) -/

/-- C17: whenever the conversion poll does not return `HAL_OK`, `ADC_ReadChannel`
returns raw 0 whatever the channel holds, the pass of the UI block still returns, and
the axis of a failed channel is the value normalised from raw 0: -5 on LX and RX, +5 on
LY and RY. -/
theorem C17_adc_fail_soft (a : AdcSample) (inp : Inputs) (s : Sys) (h : a.poll_ok = false) :
    ADC_ReadChannel a = 0 ∧
    axisX 0 = -5 ∧ axisY 0 = 5 ∧
    (∃ s', uiTick inp s = some s') ∧
    (inp.adc0.poll_ok = false → (readPanel inp).Lx = -5) ∧
    (inp.adc1.poll_ok = false → (readPanel inp).Ly = 5) ∧
    (inp.adc4.poll_ok = false → (readPanel inp).Rx = -5) ∧
    (inp.adc8.poll_ok = false → (readPanel inp).Ry = 5) := by
  have hz : ∀ b : AdcSample, b.poll_ok = false → ADC_ReadChannel b = 0 := by
    intro b hb
    unfold ADC_ReadChannel
    rw [hb]
    rfl
  refine ⟨hz a h, by decide, by decide, ⟨_, uiTick_eq inp s⟩, ?_, ?_, ?_, ?_⟩
  · intro h0
    simp only [readPanel, hz _ h0]
    decide
  · intro h0
    simp only [readPanel, hz _ h0]
    decide
  · intro h0
    simp only [readPanel, hz _ h0]
    decide
  · intro h0
    simp only [readPanel, hz _ h0]
    decide

theorem C17_adc_fail_soft_witness :
    ADC_ReadChannel ⟨false, 3000⟩ = 0 ∧
    (readPanel
      { adc0 := ⟨false, 3000⟩, adc1 := ⟨false, 3000⟩, adc4 := ⟨true, 2048⟩,
        adc8 := ⟨true, 2048⟩, pc10 := GPIO_PinState.GPIO_PIN_SET,
        pc11 := GPIO_PinState.GPIO_PIN_SET, pd2 := GPIO_PinState.GPIO_PIN_SET,
        pc12 := GPIO_PinState.GPIO_PIN_SET }).Lx = -5 ∧
    (readPanel
      { adc0 := ⟨false, 3000⟩, adc1 := ⟨false, 3000⟩, adc4 := ⟨true, 2048⟩,
        adc8 := ⟨true, 2048⟩, pc10 := GPIO_PinState.GPIO_PIN_SET,
        pc11 := GPIO_PinState.GPIO_PIN_SET, pd2 := GPIO_PinState.GPIO_PIN_SET,
        pc12 := GPIO_PinState.GPIO_PIN_SET }).Ly = 5 :=
  have h := C17_adc_fail_soft ⟨false, 3000⟩
    { adc0 := ⟨false, 3000⟩, adc1 := ⟨false, 3000⟩, adc4 := ⟨true, 2048⟩,
      adc8 := ⟨true, 2048⟩, pc10 := GPIO_PinState.GPIO_PIN_SET,
      pc11 := GPIO_PinState.GPIO_PIN_SET, pd2 := GPIO_PinState.GPIO_PIN_SET,
      pc12 := GPIO_PinState.GPIO_PIN_SET }
    { g_lcd_addr := 78, i2c := [], uart := [], current_lcd_state := 0,
      previous_lcd_state := 99, line1 := [], line2 := [], t_led := 0, t_ui := 0,
      led := false } rfl
  ⟨h.1, h.2.2.2.2.1 rfl, h.2.2.2.2.2.1 rfl⟩

end MainC
